import Mathlib

/-!
A shallow embedding of `src/BetterJSONStorage/BetterJSONStorage.py`: a
single-file JSON storage session (`BetterJSONStorage`) with a process-wide
path registry (`_paths`), an in-memory document (`_data`), a dirty flag
(`_changed`), and a background writer thread (`__file_writer`) guarded by
`_shutdown_lock`.

Modelling conventions:
  * bytes are `List Nat`;
  * the serialization codec (orjson) and the compression codec (blosc2) are
    external collaborators, modelled as an abstract `Codec` record whose
    `deserialize`/`decompress` return `none` where the Python functions raise;
  * the process-wide `_paths : Set[int]` is a `Finset Nat` of path hashes;
  * the backing file is a `FileSys` record for the one path of interest;
  * a function that may block forever (the spin in `close`, the acquisition of
    a lock held by a dead thread) returns `Option`, with `none` meaning the
    call never returns;
  * exceptions are an explicit `PyError` result.
-/

deriving instance DecidableEq for Except

namespace BJS

/-- Byte strings (Python `bytes`) modelled as lists of naturals. -/
abbrev Bytes := List Nat

/-- The external codec pair (orjson `dumps`/`loads` and blosc2
`compress`/`decompress`), specified only at its interface.
`decompress` returns `none` where blosc2 raises.  `deserialize` returns
`none` where `loads` raises, and otherwise `some v` with `v` the parsed
Python value — where `v = none` is the Python value `None`, which `loads`
returns without raising on the JSON literal `null`.  `serializeNone` is the
byte string `dumps(None)` produces (orjson serializes `None` as `null`). -/
structure Codec (Doc : Type) where
  serialize : Doc → Bytes
  deserialize : Bytes → Option (Option Doc)
  compress : Bytes → Bytes
  decompress : Bytes → Option Bytes
  serializeNone : Bytes

/-- Status of the `__file_writer` background thread together with the
`_shutdown_lock` it acquires as its first statement and releases when its
loop exits.  `crashedHoldingLock` is a thread killed by an uncaught exception
inside the loop body: the release on line 133 never runs. -/
inductive WriterStatus where
  | notStarted
  | runningHoldingLock
  | exitedReleased
  | crashedHoldingLock
deriving DecidableEq

/-- The exceptions of the Python code.  `invalidAccessMode` (line 72) and
`fileNotFound` (lines 81 and 90) are the raises the source intends on its
validation paths; `attributeErrorNoHandle` is the `AttributeError` raised by
`self._handle.flush()` inside `close` when the `_handle` slot of `__slots__`
was never assigned; `alreadyOpen` is the `AttributeError` raised by `__new__`
for a registered path. -/
inductive PyError where
  | alreadyOpen
  | attributeErrorNoHandle
  | invalidAccessMode
  | fileNotFound
  | corruptStore
  | permissionDenied
deriving DecidableEq

/-- The backing file of the session path: whether the path exists, whether it
is a regular file, and its byte content. -/
structure FileSys where
  pathExists : Bool
  isFile : Bool
  bytes : Bytes
deriving DecidableEq

/-- The mutable state of one `BetterJSONStorage` instance (`__slots__`),
together with the status of its writer thread.  `handleOpen` records whether
the `_handle` slot holds an open file object. -/
structure Session (Doc : Type) where
  hashVal : Nat
  accessMode : String
  data : Option Doc
  changed : Bool
  running : Bool
  handleOpen : Bool
  writer : WriterStatus
deriving DecidableEq

variable {Doc : Type}

/-- Model of Python `hash(path)` on line 68 and 108: a deterministic hash of
the path string. -/
def pathHash (p : String) : Nat :=
  p.toList.foldl (fun a c => a * 256 + c.toNat) 7

/-- Model of `dumps(self._data)` as it appears on line 131: `_data` may legitimately be
`None` (absent document), which orjson serializes as `null`. -/
def dumpsData (c : Codec Doc) : Option Doc → Bytes
  | some d => c.serialize d
  | none => c.serializeNone

/-- Model of `load` (lines 141-146) on a given byte content: an empty file means an
absent document (`_data = None`); otherwise `_data` becomes whatever value
`loads(decompress(db_bytes))` returns — which is again the Python `None`,
i.e. an absent document, when the decompressed bytes are the JSON literal
`null` — while a failure of either codec raises (modelled as
`corruptStore`).  There is no fallback to an absent document on failure. -/
def loadBytes (c : Codec Doc) (b : Bytes) : Except PyError (Option Doc) :=
  if b.isEmpty then .ok none
  else
    match c.decompress b with
    | none => .error .corruptStore
    | some raw =>
      match c.deserialize raw with
      | none => .error .corruptStore
      | some v => .ok v

/-- Model of `load` at the session level: re-read the file and overwrite `_data`. -/
def loadOp (c : Codec Doc) (s : Session Doc) (fs : FileSys) :
    Except PyError (Session Doc) :=
  match loadBytes c fs.bytes with
  | .error e => .error e
  | .ok d => .ok { s with data := d }

/-- Model of `read` (lines 122-123): return `_data` as is. -/
def readOp (s : Session Doc) : Option Doc := s.data

/-- Model of `write` (lines 135-139): `PermissionError` unless `_access_mode == "r+"`,
otherwise replace `_data` with the value and set `_changed`.  On the error
path the raise happens before either assignment, so the session is returned
unchanged.  The file is neither an input nor an output: `write` never
flushes. -/
def writeOp (s : Session Doc) (v : Doc) : Except PyError Unit × Session Doc :=
  if s.accessMode = "r+" then (.ok (), { s with data := some v, changed := true })
  else (.error .permissionDenied, s)

/-- One pass of the `__file_writer` loop body (lines 127-131).  The flush
fires only while `_running` holds, `_changed` was observed true and the
thread is alive.  `_changed` is cleared BEFORE the write on line 131; the
handle was opened with mode `'wb'`, so `handle.write` emits at the current
file position, i.e. appends after any earlier flush of this session.
`writeOk = false` models `dumps`, `compress` or `handle.write` raising: the
exception escapes the loop and kills the thread, which therefore never
releases `_shutdown_lock` (line 133 is skipped). -/
def flushCycleFallible (c : Codec Doc) (writeOk : Bool) (s : Session Doc)
    (fs : FileSys) : Session Doc × FileSys :=
  if s.running ∧ s.changed ∧ s.writer = .runningHoldingLock then
    let s1 := { s with changed := false }
    if writeOk then
      (s1, { fs with bytes := fs.bytes ++ c.compress (dumpsData c s1.data) })
    else
      ({ s1 with writer := .crashedHoldingLock }, fs)
  else (s, fs)

/-- A writer pass whose write succeeds. -/
def flushCycle (c : Codec Doc) (s : Session Doc) (fs : FileSys) :
    Session Doc × FileSys :=
  flushCycleFallible c true s fs

/-- Iterate `n` consecutive passes of the writer loop. -/
def writerLoop (c : Codec Doc) : Nat → Session Doc × FileSys → Session Doc × FileSys
  | 0, x => x
  | n + 1, (s, fs) => writerLoop c n (flushCycle c s fs)

/-- Writer status after `close` sets `_running := false` and the lock is
handed over: a live writer leaves its loop and releases the lock. -/
def exitWriter : WriterStatus → WriterStatus
  | .runningHoldingLock => .exitedReleased
  | w => w

/-- The returning tail of `close` (lines 151-155) once the spin on `_changed`
is over: set `_running := false`; acquire `_shutdown_lock`, which blocks
forever (`none`) when the writer crashed while holding it, and succeeds once
a live writer observes `_running = false`, leaves its loop and releases;
then `self._handle.flush()`, which raises `AttributeError` when the `_handle`
slot was never assigned — in which case the registry discard on line 155 is
never reached and the path hash stays registered. -/
def closeReturn (s : Session Doc) (fs : FileSys) (reg : Finset Nat) :
    Option (Except PyError Unit × Session Doc × FileSys × Finset Nat) :=
  if s.writer = .crashedHoldingLock then none
  else
    let s2 : Session Doc := { s with running := false, writer := exitWriter s.writer }
    if s2.handleOpen then
      some (.ok (), { s2 with handleOpen := false }, fs, reg.erase s2.hashVal)
    else
      some (.error .attributeErrorNoHandle, s2, fs, reg)

/-- Model of `close` (lines 148-155).  The leading `while self._changed: ...` spin
terminates only if a live writer clears the flag by flushing; otherwise the
call never returns (`none`). -/
def closeOp (c : Codec Doc) (s : Session Doc) (fs : FileSys) (reg : Finset Nat) :
    Option (Except PyError Unit × Session Doc × FileSys × Finset Nat) :=
  if s.changed then
    if s.running ∧ s.writer = .runningHoldingLock then
      let sf := flushCycle c s fs
      closeReturn sf.1 sf.2 reg
    else none
  else closeReturn s fs reg

/-- Lines 94-105 of `__init__`: `self._handle = path.open('wb')`, which
TRUNCATES the file to zero bytes; then the mode and path fields are set and
the initial `load` runs — reading the just-truncated, hence empty, file — and
line 105 unconditionally starts the writer thread, whatever the access mode.
A `load` failure would propagate without any cleanup (no `close`), but the
truncation makes the initial `load` always succeed with an absent document. -/
def finishInit (c : Codec Doc) (reg : Finset Nat) (h : Nat) (mode : String)
    (fs : FileSys) : Except PyError (Session Doc) × FileSys × Finset Nat :=
  let fs1 : FileSys := { fs with bytes := ([] : Bytes) }
  let s : Session Doc := ⟨h, mode, none, false, true, true, .notStarted⟩
  match loadOp c s fs1 with
  | .error e => (.error e, fs1, reg)
  | .ok s1 => (.ok { s1 with writer := .runningHoldingLock }, fs1, reg)

/-- Model of `__new__` (lines 107-115) followed by `__init__` (lines 59-105).
`__new__` rejects a registered path hash with `AttributeError`
(`alreadyOpen`) before adding the hash.  Inside `__init__`, each validation
failure calls `self.close()` before its `raise`; since no `_handle` slot has
been assigned on those paths, `close` itself raises `AttributeError` at
`self._handle.flush()` — so the intended `invalidAccessMode` and
`fileNotFound` raises are dead code, and the discard on line 155 is never
reached: the registry keeps the hash added by `__new__`.  A missing path in
mode `"r+"` is created empty (`mkdir` on the parents plus `open('wb+')`),
after which the `is_file` test passes and the `'wb'` handle is opened like in
the pre-existing-file case. -/
def initSession (c : Codec Doc) (reg : Finset Nat) (p : String) (mode : String)
    (fs : FileSys) : Except PyError (Session Doc) × FileSys × Finset Nat :=
  let h := pathHash p
  if h ∈ reg then
    (.error .alreadyOpen, fs, reg)
  else
    let reg1 := insert h reg
    if mode = "r" ∨ mode = "r+" then
      if fs.pathExists then
        if fs.isFile then
          finishInit c reg1 h mode fs
        else
          (.error .attributeErrorNoHandle, fs, reg1)
      else
        if mode = "r" then
          (.error .attributeErrorNoHandle, fs, reg1)
        else
          finishInit c reg1 h mode ⟨true, true, []⟩
    else
      (.error .attributeErrorNoHandle, fs, reg1)

/-- A concrete codec for concrete runs: a document `d` serializes to the two
bytes `[1, d]`, the Python value `None` serializes to the JSON-null byte
string `[255]` — which deserializes back to a successful `None`, as orjson's
`loads(b"null")` does — every other byte string fails to deserialize, and
compression prepends a `0` tag. -/
def testCodec : Codec Nat :=
  ⟨fun d => [1, d],
   fun b => match b with
     | [255] => some none
     | [1, d] => some (some d)
     | _ => none,
   fun b => 0 :: b,
   fun b => match b with | 0 :: rest => some rest | _ => none,
   [255]⟩

/-- Scenario for claim C1: open a fresh path read-write, `write 42`, let the
writer flush, `close`, then reopen the same path read-write; return the
on-disk bytes right before the reopen paired with `read()` of the reopened
session (`none` only if some step of the scenario did not return normally). -/
def c1Run : Option (Bytes × Option Nat) :=
  match initSession testCodec ∅ "db" "r+" ⟨false, false, []⟩ with
  | (.ok s1, fs1, reg1) =>
    match writeOp s1 42 with
    | (.ok (), s2) =>
      let sf := flushCycle testCodec s2 fs1
      match closeOp testCodec sf.1 sf.2 reg1 with
      | some (.ok (), _, fs3, reg3) =>
        match initSession testCodec reg3 "db" "r+" fs3 with
        | (.ok s5, _, _) => some (fs3.bytes, readOp s5)
        | _ => none
      | _ => none
    | _ => none
  | _ => none

/-- Claim C1 (round-trip persistence): writing `42` on a read-write session,
closing, and reopening the path should yield a session whose `read()` returns
`42`.  The code violates this: after `close` the file does hold
`compress(serialize 42)`, but reopening truncates the file (the `'wb'` handle
on line 94) before the initial `load`, so the reopened `read()` is the absent
document, not `42`. -/
theorem c1_roundtrip_broken :
    c1Run = some (testCodec.compress (testCodec.serialize 42), none) ∧
    c1Run ≠ some (testCodec.compress (testCodec.serialize 42), some 42) := by
  exact ⟨rfl, by decide⟩

/-- Scenario for claim C2: open a fresh path read-write, `write 1`, flush,
`write 2`, flush; return the file bytes after the second flush. -/
def c2Run : Option Bytes :=
  match initSession testCodec ∅ "db2" "r+" ⟨false, false, []⟩ with
  | (.ok s1, fs1, _) =>
    match writeOp s1 1 with
    | (.ok (), s2) =>
      let a := flushCycle testCodec s2 fs1
      match writeOp a.1 2 with
      | (.ok (), s3) =>
        let b := flushCycle testCodec s3 a.2
        some b.2.bytes
      | _ => none
    | _ => none
  | _ => none

/-- Claim C2 (replace-on-write flushes): after two flushes the file should
hold exactly `compress(serialize 2)`.  The code violates this: `handle.write`
on line 131 emits at the current position of the `'wb'` handle, so the second
flush is appended after the first and the earlier flush's bytes remain as a
prefix of the file. -/
theorem c2_flush_appends :
    c2Run = some (testCodec.compress (testCodec.serialize 1) ++
      testCodec.compress (testCodec.serialize 2)) ∧
    c2Run ≠ some (testCodec.compress (testCodec.serialize 2)) := by
  exact ⟨rfl, by decide⟩

/-- Run of claim C4: open a path that does not exist with access mode `"r"`
against an empty registry. -/
def c4Run : Except PyError (Session Nat) × FileSys × Finset Nat :=
  initSession testCodec (∅ : Finset Nat) "p" "r" (⟨false, false, []⟩ : FileSys)

/-- Claim C4 (missing file in read-only mode): the claim says the open fails
with `NotFound` (`FileNotFoundError`) and nothing stays in the path registry.
The code violates both parts: `self.close()` on line 80 crashes with
`AttributeError` on the unset `_handle` slot before the `FileNotFoundError`
on line 81 is ever raised, and because `close` crashed before its line 155,
the path hash added by `__new__` stays registered. -/
theorem c4_missing_file_readonly :
    c4Run.1 = .error .attributeErrorNoHandle ∧
    c4Run.1 ≠ .error .fileNotFound ∧
    pathHash "p" ∈ c4Run.2.2 := by
  exact ⟨rfl, by decide, by decide⟩

/-- Run of claim C5, first failing input: an invalid access mode `"w"` on a
fresh path. -/
def c5RunBadMode : Except PyError (Session Nat) × FileSys × Finset Nat :=
  initSession testCodec (∅ : Finset Nat) "p" "w" (⟨false, false, []⟩ : FileSys)

/-- Run of claim C5, second failing input: a path that exists but is not a
regular file, opened read-write. -/
def c5RunNotAFile : Except PyError (Session Nat) × FileSys × Finset Nat :=
  initSession testCodec (∅ : Finset Nat) "q" "r+" (⟨true, false, []⟩ : FileSys)

/-- Claim C5 (construction failures release partial resources): the claim
says every construction-time failure releases the registry entry before the
error is returned.  The code violates this: on the invalid-access-mode path
and on the not-a-regular-file path the `close()` call crashes at
`self._handle.flush()` before the discard on line 155, so the hash that
`__new__` added is still registered when the error reaches the caller. -/
theorem c5_construction_leaks_registry :
    c5RunBadMode.1 = .error .attributeErrorNoHandle ∧
    pathHash "p" ∈ c5RunBadMode.2.2 ∧
    c5RunNotAFile.1 = .error .attributeErrorNoHandle ∧
    pathHash "q" ∈ c5RunNotAFile.2.2 := by
  exact ⟨rfl, by decide, rfl, by decide⟩

/-- Session for the run of claim C7: a live read-write session with a dirty
in-memory document. -/
def c7Sess : Session Nat := ⟨3, "r+", some 3, true, true, true, .runningHoldingLock⟩

/-- File for the run of claim C7. -/
def c7Fs : FileSys := ⟨true, true, []⟩

/-- State after a flush pass of claim C7 in which the write raises. -/
def c7After : Session Nat × FileSys :=
  flushCycleFallible testCodec false c7Sess c7Fs

/-- Claim C7 (flush failure handling): the claim says a failing flush leaves
`dirty` set for a retry, keeps the task alive, and surfaces the failure to
the session.  The code violates all three: `_changed` is cleared on
line 130 before the write raises (so the data is never retried), the
exception kills the writer thread which still holds `_shutdown_lock`, and
nothing is surfaced — a later `close` blocks forever on acquiring that lock
(modelled by `closeOp` returning `none`). -/
theorem c7_flush_failure_kills_writer :
    (c7After.1).changed = false ∧
    (c7After.1).writer = .crashedHoldingLock ∧
    c7After.2 = c7Fs ∧
    closeOp testCodec c7After.1 c7After.2 (∅ : Finset Nat) = none := by
  exact ⟨rfl, rfl, rfl, rfl⟩

/-- Run of claim C9: an existing regular file with non-empty content, opened
with access mode `"r"` (read-only). -/
def c9Run : Except PyError (Session Nat) × FileSys × Finset Nat :=
  initSession testCodec (∅ : Finset Nat) "p" "r" (⟨true, true, [9, 9]⟩ : FileSys)

/-- Writer-thread status of the session produced by the claim C9 run. -/
def c9Writer : Option WriterStatus :=
  match c9Run.1 with
  | .ok s => some s.writer
  | .error _ => none

/-- Claim C9 (read-only sessions run no task and write nothing): the claim
says a read-only open spawns no background task and performs no write to the
backing file.  The code violates both parts: line 105 starts `__file_writer`
unconditionally, and line 94 opens the file with `'wb'`, truncating its
existing content to zero bytes even in read-only mode. -/
theorem c9_readonly_truncates_and_spawns :
    c9Writer = some .runningHoldingLock ∧
    c9Run.2.1.bytes = [] ∧
    ((⟨true, true, [9, 9]⟩ : FileSys)).bytes ≠ [] := by
  exact ⟨rfl, rfl, by decide⟩

/-- Session used by the claim C3 counterexample and witness. -/
def c3Sess : Session Nat := ⟨7, "r", none, false, true, true, .runningHoldingLock⟩

/-- Counterexample to claim C3 as stated: the file content
`compress(dumps(None))` — exactly what a flush of an absent document emits,
here the bytes `[0, 255]` — is non-empty, yet `load` succeeds and sets the
document to absent, because `loads` returns the Python `None` on the JSON
literal `null` without raising.  This refutes the only-if direction of
"absent if and only if the file is empty". -/
theorem c3_absent_on_nonempty_bytes :
    loadOp testCodec c3Sess ⟨true, true, [0, 255]⟩ = .ok { c3Sess with data := none } ∧
    testCodec.compress testCodec.serializeNone = [0, 255] ∧
    ((⟨true, true, [0, 255]⟩ : FileSys)).bytes ≠ [] := by
  exact ⟨rfl, rfl, by decide⟩

/-- Claim C3 as amended (load semantics): for every codec, session and file,
an empty file loads as an absent document; non-empty bytes load as whatever
value `deserialize (decompress bytes)` yields when both codecs succeed —
which is the absent document exactly when those bytes decode to JSON null —
a failure of either codec raises `corruptStore`, and a failure never
silently yields an absent document. -/
theorem c3_load_semantics (c : Codec Doc) (s : Session Doc) (fs : FileSys) :
    (fs.bytes = [] → loadOp c s fs = .ok { s with data := none }) ∧
    (fs.bytes ≠ [] →
      (∀ raw v, c.decompress fs.bytes = some raw → c.deserialize raw = some v →
        loadOp c s fs = .ok { s with data := v }) ∧
      (c.decompress fs.bytes = none → loadOp c s fs = .error .corruptStore) ∧
      (∀ raw, c.decompress fs.bytes = some raw → c.deserialize raw = none →
        loadOp c s fs = .error .corruptStore) ∧
      (loadOp c s fs = .ok { s with data := none } →
        ∃ raw, c.decompress fs.bytes = some raw ∧ c.deserialize raw = some none)) := by
  constructor
  · intro h
    simp [loadOp, loadBytes, h]
  · intro hne
    have hbe : fs.bytes.isEmpty = false := by
      cases hb : fs.bytes with
      | nil => exact absurd hb hne
      | cons a l => rfl
    refine ⟨?_, ?_, ?_, ?_⟩
    · intro raw v h1 h2
      simp [loadOp, loadBytes, hbe, h1, h2]
    · intro h1
      simp [loadOp, loadBytes, hbe, h1]
    · intro raw h1 h2
      simp [loadOp, loadBytes, hbe, h1, h2]
    · simp only [loadOp, loadBytes, hbe, Bool.false_eq_true, if_false]
      cases h1 : c.decompress fs.bytes with
      | none => simp
      | some raw =>
        cases h2 : c.deserialize raw with
        | none => simp [h2]
        | some v =>
          simp only [h2]
          intro h3
          refine ⟨raw, rfl, ?_⟩
          rw [h2]
          have h4 := congrArg Session.data (Except.ok.inj h3)
          simp only at h4
          rw [h4]

/-- Witness for the amended claim C3: an empty file loads as absent, the
bytes `[0, 1, 5]` load as the document `5`, the undecompressable bytes `[9]`
raise `corruptStore`, and the only way a non-empty file loads as absent is
through a successful parse of JSON null. -/
theorem c3_load_semantics_witness :
    loadOp testCodec c3Sess ⟨true, true, []⟩ = .ok { c3Sess with data := none } ∧
    loadOp testCodec c3Sess ⟨true, true, [0, 1, 5]⟩ = .ok { c3Sess with data := some 5 } ∧
    loadOp testCodec c3Sess ⟨true, true, [9]⟩ = .error .corruptStore :=
  ⟨(c3_load_semantics testCodec c3Sess ⟨true, true, []⟩).1 rfl,
   ((c3_load_semantics testCodec c3Sess ⟨true, true, [0, 1, 5]⟩).2 (by decide)).1
     [1, 5] (some 5) rfl rfl,
   ((c3_load_semantics testCodec c3Sess ⟨true, true, [9]⟩).2 (by decide)).2.1 rfl⟩

/-- Claim C6 (write semantics): on a read-only session `write` raises
`PermissionError` and leaves the session — document and dirty flag included —
unchanged; on a read-write session it replaces the document, sets the dirty
flag and returns.  `writeOp` takes no file state: the call never performs or
waits for a flush. -/
theorem c6_write_semantics (s : Session Doc) (v : Doc) :
    (s.accessMode = "r" → writeOp s v = (.error .permissionDenied, s)) ∧
    (s.accessMode = "r+" →
      writeOp s v = (.ok (), { s with data := some v, changed := true })) := by
  constructor
  · intro h
    simp [writeOp, h]
  · intro h
    simp [writeOp, h]

/-- Read-only session used by the claim C6 witness. -/
def c6SessR : Session Nat := ⟨1, "r", some 5, false, true, true, .runningHoldingLock⟩

/-- Read-write session used by the claim C6 witness. -/
def c6SessRW : Session Nat := ⟨2, "r+", some 5, false, true, true, .runningHoldingLock⟩

/-- Witness for claim C6 at two concrete sessions. -/
theorem c6_write_semantics_witness :
    writeOp c6SessR 7 = (.error .permissionDenied, c6SessR) ∧
    writeOp c6SessRW 7 = (.ok (), { c6SessRW with data := some 7, changed := true }) :=
  ⟨(c6_write_semantics c6SessR 7).1 rfl, (c6_write_semantics c6SessRW 7).2 rfl⟩

/-- Helper: with the file just truncated by the `'wb'` handle, the tail of
`__init__` always succeeds, loading an absent document and starting the
writer thread. -/
theorem finishInit_eq (c : Codec Doc) (reg : Finset Nat) (h : Nat) (mode : String)
    (fs : FileSys) :
    finishInit c reg h mode fs =
      (.ok ⟨h, mode, none, false, true, true, .runningHoldingLock⟩,
       { fs with bytes := [] }, reg) := rfl

/-- Helper: a flush pass does not change the stored path hash. -/
theorem flushCycleFallible_hashVal (c : Codec Doc) (ok : Bool) (s : Session Doc)
    (fs : FileSys) : ((flushCycleFallible c ok s fs).1).hashVal = s.hashVal := by
  simp only [flushCycleFallible]
  split
  · split <;> rfl
  · rfl

/-- Helper: when the tail of `close` returns normally, the registry it
returns no longer contains the session's path hash. -/
theorem closeReturn_ok (s : Session Doc) (fs : FileSys) (reg : Finset Nat)
    (e : Unit) (s2 : Session Doc) (fs2 : FileSys) (reg2 : Finset Nat)
    (h : closeReturn s fs reg = some (.ok e, s2, fs2, reg2)) :
    s.hashVal ∉ reg2 := by
  simp only [closeReturn] at h
  split at h
  · exact Option.noConfusion h
  · split at h
    · simp only [Option.some.injEq, Prod.mk.injEq] at h
      obtain ⟨-, -, -, h4⟩ := h
      rw [← h4]
      exact Finset.not_mem_erase _ _
    · simp only [Option.some.injEq, Prod.mk.injEq] at h
      exact absurd h.1 (by simp)

/-- Claim C8 (path uniqueness): opening a path whose hash is registered fails
with the already-open error and changes nothing; a successful open registers
the path hash; a `close` that returns normally removes the session's hash
from the registry; and a subsequent open of the path then succeeds (given the
backing file still exists as a regular file and the mode is valid). -/
theorem c8_path_uniqueness (c : Codec Doc) (reg : Finset Nat) (p : String)
    (mode : String) (fs : FileSys) :
    (pathHash p ∈ reg →
      initSession c reg p mode fs = (.error .alreadyOpen, fs, reg)) ∧
    (∀ s fs2 reg2, initSession c reg p mode fs = (.ok s, fs2, reg2) →
      s.hashVal = pathHash p ∧ pathHash p ∈ reg2) ∧
    (∀ (s : Session Doc) (fs1 : FileSys) (reg1 : Finset Nat) (e : Unit)
      (s2 : Session Doc) (fs2 : FileSys) (reg2 : Finset Nat),
      closeOp c s fs1 reg1 = some (.ok e, s2, fs2, reg2) →
      s.hashVal ∉ reg2) ∧
    (pathHash p ∉ reg → fs.pathExists = true → fs.isFile = true →
      (mode = "r" ∨ mode = "r+") →
      initSession c reg p mode fs =
        (.ok ⟨pathHash p, mode, none, false, true, true, .runningHoldingLock⟩,
         { fs with bytes := [] }, insert (pathHash p) reg)) := by
  refine ⟨?_, ?_, ?_, ?_⟩
  · intro h
    simp [initSession, h]
  · intro s fs2 reg2 h
    simp only [initSession] at h
    by_cases hmem : pathHash p ∈ reg
    · rw [if_pos hmem] at h
      exact absurd (congrArg Prod.fst h) (by simp)
    · rw [if_neg hmem] at h
      by_cases hmode : mode = "r" ∨ mode = "r+"
      · rw [if_pos hmode] at h
        by_cases hex : fs.pathExists = true
        · rw [if_pos hex] at h
          by_cases hfile : fs.isFile = true
          · rw [if_pos hfile, finishInit_eq] at h
            simp only [Prod.mk.injEq, Except.ok.injEq] at h
            obtain ⟨h1, -, h3⟩ := h
            subst h1
            subst h3
            exact ⟨rfl, Finset.mem_insert_self _ _⟩
          · rw [if_neg hfile] at h
            exact absurd (congrArg Prod.fst h) (by simp)
        · rw [if_neg hex] at h
          by_cases hr : mode = "r"
          · rw [if_pos hr] at h
            exact absurd (congrArg Prod.fst h) (by simp)
          · rw [if_neg hr, finishInit_eq] at h
            simp only [Prod.mk.injEq, Except.ok.injEq] at h
            obtain ⟨h1, -, h3⟩ := h
            subst h1
            subst h3
            exact ⟨rfl, Finset.mem_insert_self _ _⟩
      · rw [if_neg hmode] at h
        exact absurd (congrArg Prod.fst h) (by simp)
  · intro s fs1 reg1 e s2 fs2 reg2 h
    simp only [closeOp] at h
    split at h
    · split at h
      · have := closeReturn_ok _ _ _ _ _ _ _ h
        rwa [flushCycle, flushCycleFallible_hashVal] at this
      · exact Option.noConfusion h
    · exact closeReturn_ok _ _ _ _ _ _ _ h
  · intro h1 h2 h3 h4
    simp only [initSession]
    rw [if_neg h1, if_pos h4, if_pos h2, if_pos h3, finishInit_eq]

/-- Session used by the claim C8 witness: a live, clean, read-write session
whose hash is the registered hash of path `"p"`. -/
def c8Sess : Session Nat :=
  ⟨pathHash "p", "r+", some 5, false, true, true, .runningHoldingLock⟩

/-- Witness for claim C8: a second open of the registered path `"p"` fails
with the already-open error; closing the live session removes its hash; and
an open of `"p"` against an empty registry succeeds and registers the hash. -/
theorem c8_path_uniqueness_witness :
    initSession testCodec {pathHash "p"} "p" "r+" ⟨true, true, [1]⟩ =
      (.error .alreadyOpen, ⟨true, true, [1]⟩, {pathHash "p"}) ∧
    pathHash "p" ∉ ({pathHash "p"} : Finset Nat).erase (pathHash "p") ∧
    initSession testCodec (∅ : Finset Nat) "p" "r+" ⟨true, true, [1]⟩ =
      (.ok ⟨pathHash "p", "r+", none, false, true, true, .runningHoldingLock⟩,
       ⟨true, true, []⟩, insert (pathHash "p") ∅) :=
  ⟨(c8_path_uniqueness testCodec {pathHash "p"} "p" "r+" ⟨true, true, [1]⟩).1
     (Finset.mem_singleton_self _),
   (c8_path_uniqueness testCodec {pathHash "p"} "p" "r+" ⟨true, true, [1]⟩).2.2.1
     c8Sess ⟨true, true, [0, 5]⟩ {pathHash "p"} ()
     ⟨pathHash "p", "r+", some 5, false, false, false, .exitedReleased⟩
     ⟨true, true, [0, 5]⟩ (({pathHash "p"} : Finset Nat).erase (pathHash "p")) rfl,
   (c8_path_uniqueness testCodec (∅ : Finset Nat) "p" "r+" ⟨true, true, [1]⟩).2.2.2
     (Finset.not_mem_empty _) rfl rfl (Or.inr rfl)⟩

/-- Claim C10 (writes after close are silently lost): on a read-write session
whose `_running` flag has been cleared by `close`, a further `write` still
succeeds, replacing the document and setting the dirty flag, but no number of
writer-loop passes ever changes the session or the file again — the value is
never persisted. -/
theorem c10_write_after_close_lost (c : Codec Doc) (s : Session Doc)
    (fs : FileSys) (v : Doc) (hm : s.accessMode = "r+") (hr : s.running = false) :
    writeOp s v = (.ok (), { s with data := some v, changed := true }) ∧
    ∀ n, writerLoop c n ({ s with data := some v, changed := true }, fs) =
      ({ s with data := some v, changed := true }, fs) := by
  constructor
  · simp [writeOp, hm]
  · have hflush : flushCycle c { s with data := some v, changed := true } fs =
        ({ s with data := some v, changed := true }, fs) := by
      simp [flushCycle, flushCycleFallible, hr]
    intro n
    induction n with
    | zero => rfl
    | succ k ih =>
      simp only [writerLoop, hflush]
      exact ih

/-- Session used by the claim C10 witness: the state of a read-write session
right after a successful `close`. -/
def c10Sess : Session Nat := ⟨11, "r+", some 1, false, false, false, .exitedReleased⟩

/-- Witness for claim C10 at a concrete closed session, with five writer
passes leaving the file untouched. -/
theorem c10_write_after_close_lost_witness :
    writeOp c10Sess 7 = (.ok (), { c10Sess with data := some 7, changed := true }) ∧
    writerLoop testCodec 5
        ({ c10Sess with data := some 7, changed := true }, ⟨true, true, [0, 1]⟩) =
      ({ c10Sess with data := some 7, changed := true }, ⟨true, true, [0, 1]⟩) :=
  ⟨(c10_write_after_close_lost testCodec c10Sess ⟨true, true, [0, 1]⟩ 7 rfl rfl).1,
   (c10_write_after_close_lost testCodec c10Sess ⟨true, true, [0, 1]⟩ 7 rfl rfl).2 5⟩

end BJS
